import Mathlib

/-!
# The product-catalog client `static/app.js`

A shallow embedding of the browser script `app.js` and the properties of its
catalog renderer, mutation dispatcher, form toggles and status reporter.

Conventions of the embedding.

* A value produced by `res.json()` is a `Json`.  The JavaScript value
  `undefined` (the result of reading a property that is not there) is `none`
  in `Option Json`.
* A thrown JavaScript exception is the `error` case of `Except JSError`.
* The page is a record `Page` of the parts of the document the script reads
  and writes, together with the log of the requests handed to `fetch` and the
  pending `setTimeout` callbacks.  Every element the script looks up with
  `getElementById` is taken to exist.
* Each promise chain is run to its end in one piece: the outcome of a request
  is an argument of the operation that issued it.
* The source text declares `function showMessage` twice: the declaration of
  line 143 breaks off after two statements and its body is never closed, the
  one of lines 151-156 is complete.  The embedding follows the function
  declarations as they are written, with the complete declaration for
  `showMessage`, and the statements of lines 140-141 for the state on load.
* Time is counted in whole milliseconds and a `setTimeout` callback runs at
  the instant at which it is due.
-/

namespace SreDemo

/-! ## Values -/

/-- Values that `res.json()` can produce.  A number is represented by the text
that `Number::toString` gives it (`9.99` is `"9.99"`, both zeros are `"0"`).
The entries of an object are its own properties; should a key be listed twice,
the first entry is the property. -/
inductive Json where
  | null
  | bool (b : Bool)
  | num (text : String)
  | str (s : String)
  | arr (items : List Json)
  | obj (props : List (String × Json))

/-- Exceptions the script can meet. -/
inductive JSError where
  | typeError
  | syntaxError
  deriving DecidableEq, Repr

mutual
/-- The abstract operation `ToString` on a parsed value, as applied by a
template literal.  An object without an own `toString` entry prints through
`Object.prototype.toString`; an own `toString` entry is never callable, and
neither `valueOf` can yield a primitive then, so the conversion throws.  An
array prints through `Array.prototype.join`. -/
def Json.toStr : Json → Except JSError String
  | .null => .ok "null"
  | .bool true => .ok "true"
  | .bool false => .ok "false"
  | .num text => .ok text
  | .str s => .ok s
  | .arr items => Json.joinItems items
  | .obj props =>
      if props.any (fun kv => kv.1 == "toString") then .error .typeError
      else .ok "[object Object]"
/-- The method `Array.prototype.join` with the separator `","`: a `null` item
prints as the empty string, every other item through `ToString`. -/
def Json.joinItems : List Json → Except JSError String
  | [] => .ok ""
  | [x] => Json.itemStr x
  | x :: y :: rest =>
      match Json.itemStr x with
      | .error e => .error e
      | .ok a =>
        match Json.joinItems (y :: rest) with
        | .error e => .error e
        | .ok b => .ok (a ++ "," ++ b)
/-- One item of a joined array. -/
def Json.itemStr : Json → Except JSError String
  | .null => .ok ""
  | .bool b => Json.toStr (.bool b)
  | .num t => Json.toStr (.num t)
  | .str s => Json.toStr (.str s)
  | .arr items => Json.toStr (.arr items)
  | .obj props => Json.toStr (.obj props)
end

/-- Reading `p.k` for one of the keys the script uses (`prodId`, `prodName`,
`price`, `category`; none of them is found on a prototype).  Reading a property
of `null` throws; a primitive or an array has no such property; an object
gives its own entry. -/
def getProp (p : Json) (k : String) : Except JSError (Option Json) :=
  match p with
  | .null => .error .typeError
  | .obj props => .ok (props.lookup k)
  | _ => .ok none

/-- The text a template literal substitutes for `${v}`. -/
def interpolate : Option Json → Except JSError String
  | none => .ok "undefined"
  | some v => v.toStr

/-- The abstract operation `ToBoolean`. -/
def truthy : Option Json → Bool
  | none => false
  | some .null => false
  | some (.bool b) => b
  | some (.num text) => text != "0"
  | some (.str s) => s != ""
  | some (.arr _) => true
  | some (.obj _) => true

/-- The single quote character. -/
def quoteChar : Char := Char.ofNat 39

/-- The backslash character. -/
def backslashChar : Char := Char.ofNat 92

/-- The characters of `s.replace(/'/g, "\\'")`: a backslash is put before every
single quote, every other character is kept. -/
def escapeChars : List Char → List Char
  | [] => []
  | c :: cs =>
      if c = quoteChar then backslashChar :: quoteChar :: escapeChars cs
      else c :: escapeChars cs

/-- The call `s.replace(/'/g, "\\'")` on a string. -/
def escapeQuotes (s : String) : String := String.mk (escapeChars s.data)

/-- The call `v.replace(/'/g, "\\'")` on a value read from a product: only a
string has a method `replace`; on `undefined` and `null` the property read
throws, on every other value the call of `undefined` throws. -/
def callReplace : Option Json → Except JSError String
  | some (.str s) => .ok (escapeQuotes s)
  | _ => .error .typeError

/-! ## The catalog renderer -/

/-- The placeholder of an empty catalog (line 9). -/
def emptyPlaceholder : String := "<div class=\"empty\">No products found.</div>"

/-- The placeholder of a failed read (line 30). -/
def errorPlaceholder : String := "<div class=\"empty\">Failed to load products.</div>"

/-- The opening of the table with its header row (line 12). -/
def tableHeader : String :=
  "<table><tr><th>ID</th><th>Name</th><th>Price</th><th>Category</th><th>Actions</th></tr>"

/-- The template literal of lines 14-24, filled with the ten substituted
texts in the order in which the template holds them. -/
def rowTemplate (id1 name1 price1 cat1 id2 name2 price2 cat2 id3 : String) : String :=
  "\n        <tr>\n          <td>" ++ id1 ++
  "</td>\n          <td>" ++ name1 ++
  "</td>\n          <td>" ++ price1 ++
  "</td>\n          <td>" ++ cat1 ++
  "</td>\n          <td>\n            <button onclick=\"showUpdateForm(" ++ id2 ++
  ", '" ++ name2 ++
  "', " ++ price2 ++
  ", '" ++ cat2 ++
  "')\">Edit</button>\n            <button onclick=\"deleteProduct(" ++ id3 ++
  ")\">Delete</button>\n          </td>\n        </tr>"

/-- The row of one product (lines 14-24): the substitutions are evaluated from
left to right and the first one that throws ends the evaluation. -/
def productRow (p : Json) : Except JSError String := do
  let id1 ← interpolate (← getProp p "prodId")
  let name1 ← interpolate (← getProp p "prodName")
  let price1 ← interpolate (← getProp p "price")
  let cat1 ← if truthy (← getProp p "category") then interpolate (← getProp p "category")
             else pure ""
  let id2 ← interpolate (← getProp p "prodId")
  let name2 ← callReplace (← getProp p "prodName")
  let price2 ← interpolate (← getProp p "price")
  let cat2 ← if truthy (← getProp p "category") then callReplace (← getProp p "category")
             else pure ""
  let id3 ← interpolate (← getProp p "prodId")
  pure (rowTemplate id1 name1 price1 cat1 id2 name2 price2 cat2 id3)

/-- The test `Array.isArray`. -/
def isArray : Json → Bool
  | .arr _ => true
  | _ => false

/-- The items of an array (read only after `isArray`). -/
def arrayItems : Json → List Json
  | .arr items => items
  | _ => []

/-- The callback of the second `then` of `fetchProducts` (lines 6-28): the
markup assigned to the container, or the exception thrown before any
assignment. -/
def renderProducts (products : Json) : Except JSError String :=
  if !isArray products || (arrayItems products).length == 0 then
    pure emptyPlaceholder
  else do
    let table ← (arrayItems products).foldlM
      (fun table p => do let row ← productRow p; pure (table ++ row)) tableHeader
    pure (table ++ "</table>")

/-! ## The page -/

/-- One call of `fetch`: the method, the address, the headers and, for a call
with a body, the object handed to `JSON.stringify` (its keys in the order of
their creation, each with its string). -/
structure Request where
  method : String
  url : String
  headers : List (String × String)
  body : Option (List (String × String))
  deriving DecidableEq, Repr

/-- The inputs of the add form. -/
structure AddForm where
  prodName : String
  price : String
  category : String
  deriving DecidableEq, Repr

/-- The inputs of the update form. -/
structure UpdateForm where
  prodId : String
  prodName : String
  price : String
  category : String
  deriving DecidableEq, Repr

/-- The inputs of the patch form. -/
structure PatchForm where
  prodId : String
  prodName : String
  price : String
  category : String
  imageUrl : String
  deriving DecidableEq, Repr

/-- The parts of the document and of its environment that the script reads and
writes.  `timers` holds the instants (in milliseconds) at which the pending
`setTimeout` callbacks are due, `clearedAt` records the instants at which such
a callback ran, `scrolls` counts the calls of `window.scrollTo`. -/
structure Page where
  productList : String
  messageText : String
  messageColor : String
  addForm : AddForm
  addFormDefaults : AddForm
  updateForm : UpdateForm
  updateFormDisplay : String
  patchForm : PatchForm
  patchFormDisplay : String
  requests : List Request
  timers : List Nat
  clearedAt : List Nat
  scrolls : Nat
  deriving DecidableEq, Repr

/-- A page with every text empty and nothing pending. -/
def Page.blank : Page :=
  { productList := "", messageText := "", messageColor := "",
    addForm := ⟨"", "", ""⟩, addFormDefaults := ⟨"", "", ""⟩,
    updateForm := ⟨"", "", "", ""⟩, updateFormDisplay := "",
    patchForm := ⟨"", "", "", "", ""⟩, patchFormDisplay := "",
    requests := [], timers := [], clearedAt := [], scrolls := 0 }

/-- A form is on view unless its `display` is `none`. -/
def visible (display : String) : Bool := display != "none"

/-- The two assignments the script makes when it is loaded (lines 140-141). -/
def onScriptLoad (s : Page) : Page :=
  { s with updateFormDisplay := "none", patchFormDisplay := "none" }

/-! ## The status reporter and its timers -/

/-- The delay handed to `setTimeout` (line 155). -/
def clearDelay : Nat := 2500

/-- The function `showMessage` (lines 151-156), called at the instant `now`:
the text and the colour are set and a clearing callback is scheduled; nothing
that is pending is cancelled. -/
def showMessage (msg color : String) (now : Nat) (s : Page) : Page :=
  { s with messageText := msg, messageColor := color,
           timers := s.timers ++ [now + clearDelay] }

/-- The callback `() => { m.textContent = ''; }` of line 155, run at `due`. -/
def clearCallback (s : Page) (due : Nat) : Page :=
  { s with messageText := "", clearedAt := s.clearedAt ++ [due] }

/-- The timer queue up to the instant `t`: every pending callback that is due
at `t` or before runs, in the order of scheduling, each at its due instant. -/
def runTimers (t : Nat) (s : Page) : Page :=
  (s.timers.filter (fun due => due ≤ t)).foldl clearCallback
    { s with timers := s.timers.filter (fun due => ¬ due ≤ t) }

/-- The page at the instant `t`, when `showMessage m1 c1` is called at `t1`,
`showMessage m2 c2` at `t2`, and nothing else happens in between. -/
def afterTwoMessages (m1 c1 : String) (t1 : Nat) (m2 c2 : String) (t2 : Nat)
    (t : Nat) (s : Page) : Page :=
  runTimers t (showMessage m2 c2 t2 (runTimers t2 (showMessage m1 c1 t1 s)))

/-! ## The read operation -/

/-- How the read request ends: a body that parses to a value, a body that is
not JSON, or a rejected `fetch`. -/
inductive ReadOutcome where
  | parsed (products : Json)
  | notJson
  | networkFailure

/-- How a write request ends: a response (its status code and its body text),
or a rejected `fetch`. -/
inductive WriteOutcome where
  | response (status : Nat) (text : String)
  | networkFailure

/-- The request of line 4: `fetch` with an address only is a `GET`. -/
def readRequest : Request :=
  { method := "GET", url := "/products", headers := [], body := none }

/-- The call `fetch('/products')` of line 4. -/
def fetchProductsRequest (s : Page) : Page :=
  { s with requests := s.requests ++ [readRequest] }

/-- The promise `fetch('/products').then(res => res.json())`. -/
def readJson : ReadOutcome → Except JSError Json
  | .parsed products => .ok products
  | .notJson => .error .syntaxError
  | .networkFailure => .error .typeError

/-- The promise chain of `fetchProducts` (lines 4-31) once the request has
ended: the two `then` callbacks, then the `catch` callback, which takes over
from whichever step threw.  The result is the settled state of the chain. -/
def fetchProductsChain (r : ReadOutcome) (s : Page) : Except JSError Page :=
  tryCatch
    (do let products ← readJson r
        let markup ← renderProducts products
        pure { s with productList := markup })
    (fun _ => pure { s with productList := errorPlaceholder })

/-- The effect of the chain on the page; a rejected chain would leave the page
as it was. -/
def fetchProductsSettle (r : ReadOutcome) (s : Page) : Page :=
  match fetchProductsChain r s with
  | .ok s1 => s1
  | .error _ => s

/-- The function `fetchProducts` (lines 3-32) with the outcome `r` of its
request. -/
def fetchProducts (r : ReadOutcome) (s : Page) : Page :=
  fetchProductsSettle r (fetchProductsRequest s)

/-! ## The mutation dispatcher -/

/-- The header object of the three requests with a body. -/
def jsonHeaders : List (String × String) := [("Content-Type", "application/json")]

/-- The function `addProduct` (lines 34-51): `w` is the outcome of the create
request, `now` the instant at which it is known, `r` the outcome of the read
request that the success callback issues. -/
def addProduct (w : WriteOutcome) (now : Nat) (r : ReadOutcome) (s : Page) : Page :=
  let prodName := s.addForm.prodName
  let price := s.addForm.price
  let category := s.addForm.category
  let s := { s with requests := s.requests ++
    [{ method := "POST", url := "/products", headers := jsonHeaders,
       body := some [("prodName", prodName), ("price", price), ("category", category)] }] }
  match w with
  | .response _ msg =>
      let s := showMessage msg "green" now s
      let s := fetchProductsRequest s
      let s := { s with addForm := s.addFormDefaults }
      fetchProductsSettle r s
  | .networkFailure => showMessage "Failed to add product" "red" now s

/-- The function `deleteProduct` (lines 53-61); `prodId` is the text that the
template literal substitutes for the argument. -/
def deleteProduct (prodId : String) (w : WriteOutcome) (now : Nat) (r : ReadOutcome)
    (s : Page) : Page :=
  let s := { s with requests := s.requests ++
    [{ method := "DELETE", url := "/products/" ++ prodId, headers := [], body := none }] }
  match w with
  | .response _ msg =>
      let s := showMessage msg "red" now s
      let s := fetchProductsRequest s
      fetchProductsSettle r s
  | .networkFailure => showMessage "Failed to delete product" "red" now s

/-- The function `showUpdateForm` (lines 63-70).  The first three arguments are
given as the texts the input controls store; `category` is `none` when the
argument is `undefined`. -/
def showUpdateForm (prodId prodName price : String) (category : Option String)
    (s : Page) : Page :=
  { s with
    updateForm :=
      { prodId := prodId, prodName := prodName, price := price,
        category := match category with
          | some c => if c != "" then c else ""
          | none => "" },
    updateFormDisplay := "block",
    scrolls := s.scrolls + 1 }

/-- The function `hideUpdateForm` (lines 72-74). -/
def hideUpdateForm (s : Page) : Page :=
  { s with updateFormDisplay := "none" }

/-- The function `showPatchForm` (lines 76-85). -/
def showPatchForm (prodId : String) (s : Page) : Page :=
  { s with
    patchForm := { prodId := prodId, prodName := "", price := "", category := "",
                   imageUrl := "" },
    patchFormDisplay := "block",
    updateFormDisplay := "none",
    scrolls := s.scrolls + 1 }

/-- The function `hidePatchForm` (lines 87-89). -/
def hidePatchForm (s : Page) : Page :=
  { s with patchFormDisplay := "none" }

/-- The function `updateProduct` (lines 91-109). -/
def updateProduct (w : WriteOutcome) (now : Nat) (r : ReadOutcome) (s : Page) : Page :=
  let prodId := s.updateForm.prodId
  let prodName := s.updateForm.prodName
  let price := s.updateForm.price
  let category := s.updateForm.category
  let s := { s with requests := s.requests ++
    [{ method := "PUT", url := "/products/" ++ prodId, headers := jsonHeaders,
       body := some [("prodId", prodId), ("prodName", prodName), ("price", price),
                     ("category", category)] }] }
  match w with
  | .response _ msg =>
      let s := showMessage msg "blue" now s
      let s := fetchProductsRequest s
      let s := { s with updateFormDisplay := "none" }
      fetchProductsSettle r s
  | .networkFailure => showMessage "Failed to update product" "red" now s

/-- The object `patchData` of lines 118-122: a key is created for each input
that is a truthy (non-empty) string. -/
def patchData (prodName price category imageUrl : String) : List (String × String) :=
  let d : List (String × String) := []
  let d := if prodName != "" then d ++ [("prodName", prodName)] else d
  let d := if price != "" then d ++ [("price", price)] else d
  let d := if category != "" then d ++ [("category", category)] else d
  let d := if imageUrl != "" then d ++ [("imageUrl", imageUrl)] else d
  d

/-- The function `patchProduct` (lines 111-135). -/
def patchProduct (w : WriteOutcome) (now : Nat) (r : ReadOutcome) (s : Page) : Page :=
  let prodId := s.patchForm.prodId
  let prodName := s.patchForm.prodName
  let price := s.patchForm.price
  let category := s.patchForm.category
  let imageUrl := s.patchForm.imageUrl
  let s := { s with requests := s.requests ++
    [{ method := "PATCH", url := "/products/" ++ prodId, headers := jsonHeaders,
       body := some (patchData prodName price category imageUrl) }] }
  match w with
  | .response _ msg =>
      let s := showMessage msg "orange" now s
      let s := fetchProductsRequest s
      let s := { s with patchFormDisplay := "none" }
      fetchProductsSettle r s
  | .networkFailure => showMessage "Failed to patch product" "red" now s

/-- A request that reads the whole catalog. -/
def isReadRequest (q : Request) : Bool := q.method == "GET" && q.url == "/products"

/-- The number of read requests in the log of a page. -/
def readCount (s : Page) : Nat := (s.requests.filter isReadRequest).length

/-! ## What a rendered row shows -/

/-- The four texts a data row shows, in the order of its columns. -/
structure RowView where
  id : String
  name : String
  price : String
  category : String
  deriving DecidableEq, Repr

/-- The view of an array element that is a product: an object whose `prodName`
is a string, whose `prodId` and `price` have a text, and whose `category` is
either falsy (shown blank) or a string.  Every other element has no view. -/
def rowView (p : Json) : Option RowView :=
  match p with
  | .obj props =>
      match props.lookup "prodName", interpolate (props.lookup "prodId"),
            interpolate (props.lookup "price") with
      | some (.str name), .ok id, .ok price =>
          if truthy (props.lookup "category") then
            match props.lookup "category" with
            | some (.str c) => some ⟨id, name, price, c⟩
            | _ => none
          else some ⟨id, name, price, ""⟩
      | _, _, _ => none
  | _ => none

/-- The views of all the elements of an array, when each of them has one. -/
def rowViews : List Json → Option (List RowView)
  | [] => some []
  | p :: ps =>
      match rowView p, rowViews ps with
      | some v, some vs => some (v :: vs)
      | _, _ => none

/-- One table cell of a data row, with the line break and the indentation the
template puts before it. -/
def cell (text : String) : String := "\n          <td>" ++ text ++ "</td>"

/-- The fifth cell of a data row: the edit and the delete control. -/
def actionsCell (v : RowView) : String :=
  "\n          <td>\n            <button onclick=\"showUpdateForm(" ++ v.id ++
  ", '" ++ escapeQuotes v.name ++
  "', " ++ v.price ++
  ", '" ++ escapeQuotes v.category ++
  "')\">Edit</button>\n            <button onclick=\"deleteProduct(" ++ v.id ++
  ")\">Delete</button>\n          </td>"

/-- The markup of the data row that shows `v`: the four cells of the view in
the order id, name, price, category, then the cell of the controls. -/
def rowMarkup (v : RowView) : String :=
  "\n        <tr>" ++ cell v.id ++ cell v.name ++ cell v.price ++ cell v.category ++
  actionsCell v ++ "\n        </tr>"

/-- The markup of a table: the header row, then one data row for each view in
the order of the list. -/
def tableMarkup (vs : List RowView) : String :=
  tableHeader ++ String.join (vs.map rowMarkup) ++ "</table>"

/-- Whether the characters `pat` stand at the start of `text`. -/
def startsWith : List Char → List Char → Bool
  | [], _ => true
  | _ :: _, [] => false
  | a :: pat, b :: text => a == b && startsWith pat text

/-- The number of places of a markup at which the text `<tr>` stands.  In a
markup whose pasted texts hold no `<`, these are exactly the opening tags of
its table rows. -/
def rowOpenings : List Char → Nat
  | [] => 0
  | c :: cs =>
      if startsWith "<tr>".data (c :: cs) then rowOpenings cs + 1 else rowOpenings cs

/-- A text in which the character `<` does not occur, so that it cannot open
or close a tag when it is pasted into markup. -/
def tagFree (text : String) : Bool := !text.data.contains '<'

/-- A view none of whose four texts holds the character `<`. -/
def RowView.tagFree (v : RowView) : Bool :=
  SreDemo.tagFree v.id && SreDemo.tagFree v.name && SreDemo.tagFree v.price &&
    SreDemo.tagFree v.category

/-! ## Reading a single-quoted string literal -/

/-- What follows a backslash in a string literal. -/
inductive Escape where
  | char (c : Char)
  | continuation
  | numeric
  deriving DecidableEq, Repr

/-- The meaning of the character after a backslash (ECMAScript
`EscapeSequence` and `LineContinuation`): the single escape characters, a line
terminator (the line is continued), the start of a numeric escape (`x`, `u` or
a digit), or any other character, which stands for itself. -/
def escapeOf (e : Char) : Escape :=
  if e = 'b' then .char (Char.ofNat 8)
  else if e = 't' then .char (Char.ofNat 9)
  else if e = 'n' then .char (Char.ofNat 10)
  else if e = 'v' then .char (Char.ofNat 11)
  else if e = 'f' then .char (Char.ofNat 12)
  else if e = 'r' then .char (Char.ofNat 13)
  else if e = Char.ofNat 10 ∨ e = Char.ofNat 13 ∨ e = Char.ofNat 8232 ∨ e = Char.ofNat 8233 then
    .continuation
  else if e = 'x' ∨ e = 'u' ∨ e.isDigit then .numeric
  else .char e

/-- Where the reader stands: in the plain text of the literal, right after a
backslash, or right after a line continuation that ended in a carriage return
(a line feed that follows belongs to the same continuation). -/
inductive ReaderState where
  | plain
  | escaped
  | continuedCR
  deriving DecidableEq, Repr

/-- The characters of a single-quoted string literal after its opening quote:
the value the literal denotes and the text that follows its closing quote.
There is no result when the text ends or a line ends before a closing quote,
and none for a literal with a numeric escape, which this reader does not
decode. -/
def readLiteralBody (st : ReaderState) : List Char → Option (List Char × List Char)
  | [] => none
  | c :: rest =>
      if st = .escaped then
        match escapeOf c with
        | .char d => (readLiteralBody .plain rest).map (fun vr => (d :: vr.1, vr.2))
        | .continuation =>
            readLiteralBody (if c = Char.ofNat 13 then .continuedCR else .plain) rest
        | .numeric => none
      else if st = .continuedCR ∧ c = Char.ofNat 10 then readLiteralBody .plain rest
      else if c = quoteChar then some ([], rest)
      else if c = backslashChar then readLiteralBody .escaped rest
      else if c = Char.ofNat 10 ∨ c = Char.ofNat 13 then none
      else (readLiteralBody .plain rest).map (fun vr => (c :: vr.1, vr.2))

/-- The reading of a single-quoted string literal at the start of a text. -/
def readSingleQuoted : List Char → Option (List Char × List Char)
  | [] => none
  | q :: rest => if q = quoteChar then readLiteralBody .plain rest else none

/-! ## Lemmas on the read chain -/

/-- The chain of `fetchProducts` is always fulfilled, and changes the container
only. -/
theorem fetchProductsChain_ok (r : ReadOutcome) (s : Page) :
    ∃ markup, fetchProductsChain r s = .ok { s with productList := markup } := by
  unfold fetchProductsChain
  cases r with
  | parsed products =>
      cases h : renderProducts products with
      | ok m =>
          exact ⟨m, by simp [readJson, h, tryCatch, tryCatchThe, MonadExceptOf.tryCatch,
            Except.tryCatch, bind, Except.bind, pure, Except.pure]⟩
      | error e =>
          exact ⟨errorPlaceholder, by simp [readJson, h, tryCatch, tryCatchThe,
            MonadExceptOf.tryCatch, Except.tryCatch, bind, Except.bind, pure, Except.pure]⟩
  | notJson => exact ⟨errorPlaceholder, rfl⟩
  | networkFailure => exact ⟨errorPlaceholder, rfl⟩

/-- The chain of a parsed response whose rendering succeeds. -/
theorem fetchProductsChain_of_render_ok (products : Json) (markup : String) (s : Page)
    (h : renderProducts products = .ok markup) :
    fetchProductsChain (.parsed products) s = .ok { s with productList := markup } := by
  simp [fetchProductsChain, readJson, h, tryCatch, tryCatchThe, MonadExceptOf.tryCatch,
    Except.tryCatch, bind, Except.bind, pure, Except.pure]

/-- The chain of a parsed response whose rendering throws. -/
theorem fetchProductsChain_of_render_error (products : Json) (e : JSError) (s : Page)
    (h : renderProducts products = .error e) :
    fetchProductsChain (.parsed products) s = .ok { s with productList := errorPlaceholder } := by
  simp [fetchProductsChain, readJson, h, tryCatch, tryCatchThe, MonadExceptOf.tryCatch,
    Except.tryCatch, bind, Except.bind, pure, Except.pure]

theorem fetchProductsSettle_eq (r : ReadOutcome) (s : Page) :
    ∃ markup, fetchProductsSettle r s = { s with productList := markup } := by
  obtain ⟨m, hm⟩ := fetchProductsChain_ok r s
  exact ⟨m, by simp [fetchProductsSettle, hm]⟩

theorem settle_messageText (r : ReadOutcome) (s : Page) :
    (fetchProductsSettle r s).messageText = s.messageText := by
  obtain ⟨m, hm⟩ := fetchProductsSettle_eq r s
  rw [hm]

theorem settle_messageColor (r : ReadOutcome) (s : Page) :
    (fetchProductsSettle r s).messageColor = s.messageColor := by
  obtain ⟨m, hm⟩ := fetchProductsSettle_eq r s
  rw [hm]

theorem settle_requests (r : ReadOutcome) (s : Page) :
    (fetchProductsSettle r s).requests = s.requests := by
  obtain ⟨m, hm⟩ := fetchProductsSettle_eq r s
  rw [hm]

/-! ## Lemmas on the rows -/

set_option maxRecDepth 20000 in
theorem rowTemplate_eq_rowMarkup (v : RowView) :
    rowTemplate v.id v.name v.price v.category v.id (escapeQuotes v.name) v.price
      (escapeQuotes v.category) v.id = rowMarkup v := by
  apply String.ext
  simp only [rowTemplate, rowMarkup, cell, actionsCell, String.data_append, List.append_assoc]
  rfl

theorem escapeQuotes_empty : escapeQuotes "" = "" := rfl

/-- An element with a view renders as the row of that view. -/
theorem productRow_of_rowView (p : Json) (v : RowView) (h : rowView p = some v) :
    productRow p = .ok (rowMarkup v) := by
  cases p with
  | obj props =>
      simp only [rowView] at h
      split at h
      · rename_i name id price hn hi hp
        have hn1 : interpolate (props.lookup "prodName") = .ok name := by
          rw [hn]; simp [interpolate, Json.toStr]
        by_cases hc : truthy (props.lookup "category") = true
        · rw [if_pos hc] at h
          split at h
          · rename_i c hcat
            cases h
            rw [← rowTemplate_eq_rowMarkup]
            have hc1 : interpolate (props.lookup "category") = .ok c := by
              rw [hcat]; simp [interpolate, Json.toStr]
            simp [productRow, getProp, hi, hp, hc, hn1, hc1, bind, Except.bind, pure,
              Except.pure]
            simp [hn, hcat, callReplace]
          · cases h
        · rw [if_neg hc] at h
          cases h
          rw [← rowTemplate_eq_rowMarkup]
          simp [productRow, getProp, hi, hp, hc, hn1, bind, Except.bind, pure, Except.pure]
          simp [hn, callReplace, escapeQuotes_empty]
      · cases h
  | _ => simp [rowView] at h

theorem callReplace_ok {x : Option Json} {y : String} (h : callReplace x = .ok y) :
    ∃ s, x = some (.str s) := by
  cases x with
  | none => simp [callReplace] at h
  | some v => cases v <;> simp [callReplace] at h ⊢

/-- An element without a view makes the row template throw. -/
theorem productRow_of_no_rowView (p : Json) (h : rowView p = none) :
    ∃ e, productRow p = .error e := by
  cases p with
  | obj props =>
      simp only [rowView] at h
      cases h5 : callReplace (props.lookup "prodName") with
      | error e5 =>
          cases h1 : interpolate (props.lookup "prodId") <;>
          cases h2 : interpolate (props.lookup "prodName") <;>
          cases h3 : interpolate (props.lookup "price") <;>
          cases h4 : truthy (props.lookup "category") <;>
          cases h7 : interpolate (props.lookup "category") <;>
          simp [productRow, getProp, bind, Except.bind, pure, Except.pure, h1, h2, h3, h4, h5,
            h7]
      | ok n2 =>
          obtain ⟨name, hn⟩ := callReplace_ok h5
          cases h1 : interpolate (props.lookup "prodId") with
          | error e1 => simp [productRow, getProp, bind, Except.bind, pure, Except.pure, h1]
          | ok id =>
            cases h3 : interpolate (props.lookup "price") with
            | error e3 =>
                cases h2 : interpolate (props.lookup "prodName") <;>
                simp [productRow, getProp, bind, Except.bind, pure, Except.pure, h1, h2, h3]
            | ok price =>
                rw [hn, h1, h3] at h
                simp only at h
                cases h4 : truthy (props.lookup "category") with
                | false => simp [h4] at h
                | true =>
                    rw [if_pos h4] at h
                    cases h6 : callReplace (props.lookup "category") with
                    | ok c2 =>
                        obtain ⟨c, hc⟩ := callReplace_ok h6
                        rw [hc] at h
                        simp at h
                    | error e6 =>
                        cases h2 : interpolate (props.lookup "prodName") <;>
                        cases h7 : interpolate (props.lookup "category") <;>
                        simp [productRow, getProp, bind, Except.bind, pure, Except.pure, h1, h2,
                          h3, h4, h5, h6, h7]
  | null => exact ⟨.typeError, rfl⟩
  | _ => exact ⟨.typeError, rfl⟩

theorem join_cons (a : String) (l : List String) :
    String.join (a :: l) = a ++ String.join l := by
  apply String.ext
  simp [String.data_join, String.data_append]

/-- The `forEach` of lines 13-25 appends the rows of the views, in order. -/
theorem foldlM_rows_ok (ps : List Json) :
    ∀ (vs : List RowView) (acc : String), rowViews ps = some vs →
      ps.foldlM (fun table p => do let row ← productRow p; pure (table ++ row)) acc
        = .ok (acc ++ String.join (vs.map rowMarkup)) := by
  induction ps with
  | nil =>
      intro vs acc h
      simp [rowViews] at h
      subst h
      simp [String.join, pure, Except.pure]
  | cons p ps ih =>
      intro vs acc h
      simp only [rowViews] at h
      cases hv : rowView p with
      | none => simp [hv] at h
      | some v =>
        cases hvs : rowViews ps with
        | none => simp [hv, hvs] at h
        | some vs1 =>
          simp [hv, hvs] at h
          subst h
          simp [List.foldlM, productRow_of_rowView p v hv, bind, Except.bind, pure, Except.pure]
          have := ih vs1 (acc ++ rowMarkup v) hvs
          simp [bind, Except.bind, pure, Except.pure] at this
          rw [this, join_cons, String.append_assoc]

/-- The `forEach` of lines 13-25 throws when some element has no view. -/
theorem foldlM_rows_error (ps : List Json) :
    ∀ (acc : String), rowViews ps = none →
      ∃ e, ps.foldlM (fun table p => do let row ← productRow p; pure (table ++ row)) acc
        = .error e := by
  induction ps with
  | nil => intro acc h; simp [rowViews] at h
  | cons p ps ih =>
      intro acc h
      cases hv : rowView p with
      | none =>
          obtain ⟨e, he⟩ := productRow_of_no_rowView p hv
          exact ⟨e, by simp [List.foldlM, he, bind, Except.bind]⟩
      | some v =>
          cases hvs : rowViews ps with
          | some vs1 => simp [rowViews, hv, hvs] at h
          | none =>
            obtain ⟨e, he⟩ := ih (acc ++ rowMarkup v) hvs
            refine ⟨e, ?_⟩
            simp [List.foldlM, productRow_of_rowView p v hv, bind, Except.bind, pure,
              Except.pure]
            simp [bind, Except.bind, pure, Except.pure] at he
            exact he

theorem rowViews_length (ps : List Json) :
    ∀ vs, rowViews ps = some vs → vs.length = ps.length := by
  induction ps with
  | nil => intro vs h; simp [rowViews] at h; subst h; rfl
  | cons p ps ih =>
      intro vs h
      cases hv : rowView p with
      | none => simp [rowViews, hv] at h
      | some v =>
        cases hvs : rowViews ps with
        | none => simp [rowViews, hv, hvs] at h
        | some vs1 =>
          simp [rowViews, hv, hvs] at h
          subst h
          simp [ih vs1 hvs]

/-- The second `then` callback on a non-empty array. -/
theorem renderProducts_rows (ps : List Json) (hne : ps ≠ []) :
    (∀ vs, rowViews ps = some vs → renderProducts (.arr ps) = .ok (tableMarkup vs)) ∧
    (rowViews ps = none → ∃ e, renderProducts (.arr ps) = .error e) := by
  constructor
  · intro vs h
    have := foldlM_rows_ok ps vs tableHeader h
    simp [bind, Except.bind, pure, Except.pure] at this
    simp [renderProducts, isArray, arrayItems, hne, bind, Except.bind, pure, Except.pure, this,
      tableMarkup]
  · intro h
    obtain ⟨e, he⟩ := foldlM_rows_error ps tableHeader h
    simp [bind, Except.bind, pure, Except.pure] at he
    exact ⟨e, by simp [renderProducts, isArray, arrayItems, hne, bind, Except.bind, pure,
      Except.pure, he]⟩

/-- Each element is shown by the view at its place. -/
theorem rowViews_forall₂ (ps : List Json) :
    ∀ vs, rowViews ps = some vs → List.Forall₂ (fun p v => rowView p = some v) ps vs := by
  induction ps with
  | nil => intro vs h; simp [rowViews] at h; subst h; exact List.Forall₂.nil
  | cons p ps ih =>
      intro vs h
      cases hv : rowView p with
      | none => simp [rowViews, hv] at h
      | some v =>
        cases hvs : rowViews ps with
        | none => simp [rowViews, hv, hvs] at h
        | some vs1 =>
          simp [rowViews, hv, hvs] at h
          subst h
          exact List.Forall₂.cons hv (ih vs1 hvs)

/-! ## Lemmas on the rows that a markup opens -/

/-- A text without `<` in front of a markup opens no row. -/
theorem rowOpenings_append_tagFree (xs ys : List Char) (h : '<' ∉ xs) :
    rowOpenings (xs ++ ys) = rowOpenings ys := by
  induction xs with
  | nil => rfl
  | cons c cs ih =>
      simp only [List.mem_cons, not_or] at h
      have hc : ('<' == c) = false := by simpa using h.1
      have : startsWith "<tr>".data (c :: (cs ++ ys)) = false := by
        show ('<' == c && _) = false
        rw [hc]; rfl
      simp [rowOpenings, this, ih h.2]

theorem escapeChars_tagFree (cs : List Char) (h : '<' ∉ cs) : '<' ∉ escapeChars cs := by
  induction cs with
  | nil => simp [escapeChars]
  | cons c cs ih =>
      simp only [List.mem_cons, not_or] at h
      have hq : ('<' : Char) ≠ quoteChar := by decide
      have hb : ('<' : Char) ≠ backslashChar := by decide
      by_cases hc : c = quoteChar
      · simp [escapeChars, hc, hq, hb, ih h.2]
      · simp [escapeChars, hc, h.1, ih h.2]

theorem tagFree_iff (text : String) : tagFree text = true ↔ '<' ∉ text.data := by
  simp [tagFree]

set_option maxRecDepth 20000 in
/-- The row template, filled with texts without `<`, opens exactly one row. -/
theorem rowOpenings_rowTemplate (a b c d e f g h i : String) (rest : List Char)
    (ha : '<' ∉ a.data) (hb : '<' ∉ b.data) (hc : '<' ∉ c.data) (hd : '<' ∉ d.data)
    (he : '<' ∉ e.data) (hf : '<' ∉ f.data) (hg : '<' ∉ g.data) (hh : '<' ∉ h.data)
    (hi : '<' ∉ i.data) :
    rowOpenings ((rowTemplate a b c d e f g h i).data ++ rest) = rowOpenings rest + 1 := by
  simp only [rowTemplate, String.data_append, List.append_assoc]
  have l0 : ∀ t, rowOpenings ("\n        <tr>\n          <td>".data ++ t) = rowOpenings t + 1 :=
    fun _ => rfl
  have l1 : ∀ t, rowOpenings ("</td>\n          <td>".data ++ t) = rowOpenings t :=
    fun _ => rfl
  have l4 : ∀ t, rowOpenings
      ("</td>\n          <td>\n            <button onclick=\"showUpdateForm(".data ++ t)
      = rowOpenings t := fun _ => rfl
  have l5 : ∀ t, rowOpenings (", '".data ++ t) = rowOpenings t := fun _ => rfl
  have l6 : ∀ t, rowOpenings ("', ".data ++ t) = rowOpenings t := fun _ => rfl
  have l8 : ∀ t, rowOpenings
      ("')\">Edit</button>\n            <button onclick=\"deleteProduct(".data ++ t)
      = rowOpenings t := fun _ => rfl
  have l9 : ∀ t, rowOpenings (")\">Delete</button>\n          </td>\n        </tr>".data ++ t)
      = rowOpenings t := fun _ => rfl
  rw [l0, rowOpenings_append_tagFree _ _ ha, l1, rowOpenings_append_tagFree _ _ hb, l1,
    rowOpenings_append_tagFree _ _ hc, l1, rowOpenings_append_tagFree _ _ hd, l4,
    rowOpenings_append_tagFree _ _ he, l5, rowOpenings_append_tagFree _ _ hf, l6,
    rowOpenings_append_tagFree _ _ hg, l5, rowOpenings_append_tagFree _ _ hh, l8,
    rowOpenings_append_tagFree _ _ hi, l9]

/-- The row of a view without `<` opens exactly one row. -/
theorem rowOpenings_rowMarkup (v : RowView) (rest : List Char) (h : v.tagFree = true) :
    rowOpenings ((rowMarkup v).data ++ rest) = rowOpenings rest + 1 := by
  simp only [RowView.tagFree, Bool.and_eq_true, tagFree_iff] at h
  obtain ⟨⟨⟨hid, hname⟩, hprice⟩, hcat⟩ := h
  rw [← rowTemplate_eq_rowMarkup]
  exact rowOpenings_rowTemplate _ _ _ _ _ _ _ _ _ rest hid hname hprice hcat hid
    (escapeChars_tagFree _ hname) hprice (escapeChars_tagFree _ hcat) hid

/-- The rows of views without `<` open one row each. -/
theorem rowOpenings_join (vs : List RowView) (rest : List Char)
    (h : ∀ v ∈ vs, v.tagFree = true) :
    rowOpenings ((String.join (vs.map rowMarkup)).data ++ rest)
      = rowOpenings rest + vs.length := by
  induction vs with
  | nil => simp [String.join]
  | cons v vs ih =>
      have hv := h v (List.mem_cons_self _ _)
      have hvs : ∀ w ∈ vs, w.tagFree = true := fun w hw => h w (List.mem_cons_of_mem _ hw)
      rw [List.map_cons, join_cons, String.data_append, List.append_assoc,
        rowOpenings_rowMarkup v _ hv, ih hvs, List.length_cons]
      omega

/-- The table of views without `<` opens the header row and one row for each
view. -/
theorem rowOpenings_tableMarkup (vs : List RowView) (h : ∀ v ∈ vs, v.tagFree = true) :
    rowOpenings (tableMarkup vs).data = vs.length + 1 := by
  have lh : ∀ t, rowOpenings (tableHeader.data ++ t) = rowOpenings t + 1 := fun _ => rfl
  have lt : rowOpenings "</table>".data = 0 := rfl
  rw [tableMarkup, String.data_append, String.data_append, List.append_assoc, lh,
    rowOpenings_join vs _ h, lt]
  omega

/-! ## Lemmas on the reading of the written literal -/

theorem readLiteralBody_quote (rest : List Char) :
    readLiteralBody .plain (quoteChar :: rest) = some ([], rest) := by
  simp [readLiteralBody]

theorem readLiteralBody_escaped_quote (rest : List Char) :
    readLiteralBody .plain (backslashChar :: quoteChar :: rest)
      = (readLiteralBody .plain rest).map (fun vr => (quoteChar :: vr.1, vr.2)) := by
  have hne : backslashChar ≠ quoteChar := by decide
  have hesc : escapeOf quoteChar = .char quoteChar := by decide
  simp [readLiteralBody, hne, hesc]

theorem readLiteralBody_plain (c : Char) (rest : List Char) (hq : c ≠ quoteChar)
    (hb : c ≠ backslashChar) (hlf : c ≠ Char.ofNat 10) (hcr : c ≠ Char.ofNat 13) :
    readLiteralBody .plain (c :: rest)
      = (readLiteralBody .plain rest).map (fun vr => (c :: vr.1, vr.2)) := by
  simp [readLiteralBody, hq, hb, hlf, hcr]

theorem readLiteralBody_escape (cs rest : List Char)
    (hb : backslashChar ∉ cs) (hlf : Char.ofNat 10 ∉ cs) (hcr : Char.ofNat 13 ∉ cs) :
    readLiteralBody .plain (escapeChars cs ++ quoteChar :: rest) = some (cs, rest) := by
  induction cs with
  | nil => simp [escapeChars, readLiteralBody_quote]
  | cons c cs ih =>
      simp only [List.mem_cons, not_or] at hb hlf hcr
      have ih1 := ih hb.2 hlf.2 hcr.2
      by_cases hq : c = quoteChar
      · subst hq
        simp [escapeChars, readLiteralBody_escaped_quote, ih1]
      · have h1 : c ≠ backslashChar := fun h => hb.1 h.symm
        have h2 : c ≠ Char.ofNat 10 := fun h => hlf.1 h.symm
        have h3 : c ≠ Char.ofNat 13 := fun h => hcr.1 h.symm
        simp [escapeChars, hq, readLiteralBody_plain c _ hq h1 h2 h3, ih1]

theorem quote_data : ("'" : String).data = [quoteChar] := by decide

/-- What the escaping of line 21 does achieve: a text without a backslash and
without a line break, written between single quotes with its quotes escaped,
reads back as itself and ends at the closing quote that was written. -/
theorem escaped_text_reads_back (text rest : String)
    (hb : backslashChar ∉ text.data) (hlf : Char.ofNat 10 ∉ text.data)
    (hcr : Char.ofNat 13 ∉ text.data) :
    readSingleQuoted ("'" ++ escapeQuotes text ++ "'" ++ rest).data
      = some (text.data, rest.data) := by
  have h := readLiteralBody_escape text.data rest.data hb hlf hcr
  rw [String.data_append, String.data_append, String.data_append, quote_data]
  simp only [escapeQuotes, List.append_assoc, List.singleton_append, readSingleQuoted, if_true]
  exact h

/-! ## The forms (C1) -/

/-- C1: the claim that at most one of the update form and the patch form is on
view does not hold of the code.  After the script is loaded, `showPatchForm`
followed by `showUpdateForm` leaves both forms on view, because `showUpdateForm`
(lines 63-70) never touches the patch form; the sibling `showPatchForm` (line
83) does hide the update form. -/
theorem showUpdateForm_leaves_patch_form_on_view (s : Page)
    (patchId prodId prodName price : String) (category : Option String) :
    visible (showUpdateForm prodId prodName price category
      (showPatchForm patchId (onScriptLoad s))).updateFormDisplay = true ∧
    visible (showUpdateForm prodId prodName price category
      (showPatchForm patchId (onScriptLoad s))).patchFormDisplay = true ∧
    visible (showPatchForm patchId
      (showUpdateForm prodId prodName price category (onScriptLoad s))).updateFormDisplay
        = false := by
  refine ⟨?_, ?_, ?_⟩ <;> simp [showUpdateForm, showPatchForm, onScriptLoad, visible]

/-! ## The status reporter (C2) -/

/-- C2, the claim as stated fails: with calls at 0 ms and at 1000 ms, the
second message is already erased at 2500 ms, inside its own 2500 ms, and the
clearing callback runs twice, at 2500 ms and at 3500 ms. -/
theorem second_message_erased_by_first_timer :
    (afterTwoMessages "first" "green" 0 "second" "blue" 1000 2500 Page.blank).messageText = "" ∧
    (afterTwoMessages "first" "green" 0 "second" "blue" 1000 3500 Page.blank).clearedAt
      = [2500, 3500] := by
  decide

/-- C2, amended: for two calls of `showMessage` at `t1 ≤ t2 < t1 + 2500` with
nothing pending before, the text is the second message from `t2` until the
callback of the first call runs at `t1 + 2500`; from then on the text is empty;
and the clearing callback runs twice, at `t1 + 2500` and at `t2 + 2500`. -/
theorem two_messages_timeline (m1 c1 m2 c2 : String) (t1 t2 : Nat) (s : Page)
    (h12 : t1 ≤ t2) (h21 : t2 < t1 + clearDelay) (hs : s.timers = []) :
    (∀ t, t2 ≤ t → t < t1 + clearDelay →
      (afterTwoMessages m1 c1 t1 m2 c2 t2 t s).messageText = m2) ∧
    (∀ t, t1 + clearDelay ≤ t →
      (afterTwoMessages m1 c1 t1 m2 c2 t2 t s).messageText = "") ∧
    (∀ t, t2 + clearDelay ≤ t →
      (afterTwoMessages m1 c1 t1 m2 c2 t2 t s).clearedAt
        = s.clearedAt ++ [t1 + clearDelay, t2 + clearDelay]) := by
  refine ⟨?_, ?_, ?_⟩
  · intro t ht2 ht
    have e3 : t < t2 + clearDelay := by omega
    simp [afterTwoMessages, runTimers, showMessage, hs, List.filter_cons, h21, ht, e3,
      clearCallback]
  · intro t ht
    have e2 : ¬ t < t1 + clearDelay := by omega
    by_cases e3 : t2 + clearDelay ≤ t <;>
    simp [afterTwoMessages, runTimers, showMessage, hs, List.filter_cons, h21, ht, e2, e3,
      clearCallback]
  · intro t ht
    have e2 : t1 + clearDelay ≤ t := by omega
    have e4 : ¬ t < t1 + clearDelay := by omega
    simp [afterTwoMessages, runTimers, showMessage, hs, List.filter_cons, h21, e2, e4, ht,
      clearCallback]

/-- The timeline of C2 at the calls `0 ms` and `1000 ms`. -/
theorem two_messages_timeline_witness :
    (0 ≤ 1000 ∧ 1000 < 0 + clearDelay ∧ Page.blank.timers = []) ∧
    (afterTwoMessages "first" "green" 0 "second" "blue" 1000 2499 Page.blank).messageText
      = "second" ∧
    (afterTwoMessages "first" "green" 0 "second" "blue" 1000 3000 Page.blank).messageText
      = "" ∧
    (afterTwoMessages "first" "green" 0 "second" "blue" 1000 4000 Page.blank).clearedAt
      = Page.blank.clearedAt ++ [0 + clearDelay, 1000 + clearDelay] :=
  ⟨⟨by decide, by decide, rfl⟩,
   (two_messages_timeline "first" "green" "second" "blue" 0 1000 Page.blank
      (by decide) (by decide) rfl).1 2499 (by decide) (by decide),
   (two_messages_timeline "first" "green" "second" "blue" 0 1000 Page.blank
      (by decide) (by decide) rfl).2.1 3000 (by decide),
   (two_messages_timeline "first" "green" "second" "blue" 0 1000 Page.blank
      (by decide) (by decide) rfl).2.2 4000 (by decide)⟩

/-! ## The refresh after a write (C3) -/

/-- C3, the claim as stated fails: when the delete request for id 3 is
rejected at the network, the log holds the delete request alone, so no read
request follows. -/
theorem no_refresh_after_network_failure :
    (deleteProduct "3" .networkFailure 0 (.parsed (.arr [])) Page.blank).requests
      = [{ method := "DELETE", url := "/products/3", headers := [], body := none }] ∧
    readCount (deleteProduct "3" .networkFailure 0 (.parsed (.arr [])) Page.blank) = 0 := by
  decide

/-- C3, amended: each of the four write operations, when its request ends with
a response (of any status code and any text), issues exactly one read request
for the catalog, and that request is the last one it issues; when its request
is rejected at the network, it issues no read request: the write request is
the only request it adds to the log, the status text becomes the fixed failure
message of the operation, in red, and the container keeps its content. -/
theorem refresh_after_response_only (now : Nat) (r : ReadOutcome) (s : Page)
    (prodId : String) :
    (∀ status text,
      (readCount (addProduct (.response status text) now r s) = readCount s + 1 ∧
        (addProduct (.response status text) now r s).requests.getLast? = some readRequest) ∧
      (readCount (updateProduct (.response status text) now r s) = readCount s + 1 ∧
        (updateProduct (.response status text) now r s).requests.getLast?
          = some readRequest) ∧
      (readCount (patchProduct (.response status text) now r s) = readCount s + 1 ∧
        (patchProduct (.response status text) now r s).requests.getLast?
          = some readRequest) ∧
      (readCount (deleteProduct prodId (.response status text) now r s) = readCount s + 1 ∧
        (deleteProduct prodId (.response status text) now r s).requests.getLast?
          = some readRequest)) ∧
    (readCount (addProduct .networkFailure now r s) = readCount s ∧
      readCount (updateProduct .networkFailure now r s) = readCount s ∧
      readCount (patchProduct .networkFailure now r s) = readCount s ∧
      readCount (deleteProduct prodId .networkFailure now r s) = readCount s) ∧
    ((addProduct .networkFailure now r s).messageText = "Failed to add product" ∧
      (addProduct .networkFailure now r s).messageColor = "red" ∧
      (addProduct .networkFailure now r s).productList = s.productList ∧
      (addProduct .networkFailure now r s).requests = s.requests ++
        [{ method := "POST", url := "/products", headers := jsonHeaders,
           body := some [("prodName", s.addForm.prodName), ("price", s.addForm.price),
                         ("category", s.addForm.category)] }]) ∧
    ((updateProduct .networkFailure now r s).messageText = "Failed to update product" ∧
      (updateProduct .networkFailure now r s).messageColor = "red" ∧
      (updateProduct .networkFailure now r s).productList = s.productList ∧
      (updateProduct .networkFailure now r s).requests = s.requests ++
        [{ method := "PUT", url := "/products/" ++ s.updateForm.prodId,
           headers := jsonHeaders,
           body := some [("prodId", s.updateForm.prodId),
                         ("prodName", s.updateForm.prodName),
                         ("price", s.updateForm.price),
                         ("category", s.updateForm.category)] }]) ∧
    ((patchProduct .networkFailure now r s).messageText = "Failed to patch product" ∧
      (patchProduct .networkFailure now r s).messageColor = "red" ∧
      (patchProduct .networkFailure now r s).productList = s.productList ∧
      (patchProduct .networkFailure now r s).requests = s.requests ++
        [{ method := "PATCH", url := "/products/" ++ s.patchForm.prodId,
           headers := jsonHeaders,
           body := some (patchData s.patchForm.prodName s.patchForm.price
             s.patchForm.category s.patchForm.imageUrl) }]) ∧
    ((deleteProduct prodId .networkFailure now r s).messageText
        = "Failed to delete product" ∧
      (deleteProduct prodId .networkFailure now r s).messageColor = "red" ∧
      (deleteProduct prodId .networkFailure now r s).productList = s.productList ∧
      (deleteProduct prodId .networkFailure now r s).requests = s.requests ++
        [{ method := "DELETE", url := "/products/" ++ prodId, headers := [],
           body := none }]) := by
  simp [addProduct, updateProduct, patchProduct, deleteProduct, settle_requests, showMessage,
    fetchProductsRequest, readCount, isReadRequest, readRequest, List.filter_append,
    List.filter_cons, List.getLast?_append]

/-! ## The rendered table (C4) -/

/-- C4, the claim as stated fails: for the one-element array whose element is
an object with an id and a price but no `prodName`, the row template throws at
`p.prodName.replace`, and the container shows the error placeholder instead of
a table. -/
theorem element_without_name_renders_error :
    (fetchProducts
      (.parsed (.arr [.obj [("prodId", .num "1"), ("price", .num "2")]]))
      Page.blank).productList = "<div class=\"empty\">Failed to load products.</div>" := by
  have h : rowViews [Json.obj [("prodId", .num "1"), ("price", .num "2")]] = none := by
    simp [rowViews, rowView, List.lookup]
  obtain ⟨e, he⟩ := (renderProducts_rows _ (List.cons_ne_nil _ _)).2 h
  simp [fetchProducts, fetchProductsSettle, fetchProductsChain_of_render_error _ e _ he,
    errorPlaceholder]

/-- C4, amended, as a statement about the markup that is assigned to the
container.  For a non-empty array returned by the read endpoint, when every
element is a product (an object whose `prodName`, the spec's name, is a string,
whose `prodId`, the spec's id, and `price` have a text, and whose `category` is
falsy or a string), the markup is the header row followed by exactly one row
template per element, in array order, whose first four cells hold the id, the
name, the price and the category (blank when falsy) of that element in that
column order, the texts being pasted as they are, without HTML escaping; when
none of these texts holds the character `<`, the markup opens exactly one row
per element besides the header row.  When some element is not a product, the
container holds the error placeholder. -/
theorem fetchProducts_renders_rows (ps : List Json) (s : Page) (hne : ps ≠ []) :
    (∀ vs, rowViews ps = some vs →
      List.Forall₂ (fun p v => rowView p = some v) ps vs ∧
      vs.length = ps.length ∧
      (fetchProducts (.parsed (.arr ps)) s).productList = tableMarkup vs ∧
      ((∀ v ∈ vs, v.tagFree = true) →
        rowOpenings (fetchProducts (.parsed (.arr ps)) s).productList.data
          = ps.length + 1)) ∧
    (rowViews ps = none →
      (fetchProducts (.parsed (.arr ps)) s).productList = errorPlaceholder) := by
  constructor
  · intro vs h
    have hr := (renderProducts_rows ps hne).1 vs h
    have hp : (fetchProducts (.parsed (.arr ps)) s).productList = tableMarkup vs := by
      simp [fetchProducts, fetchProductsSettle, fetchProductsChain_of_render_ok _ _ _ hr]
    refine ⟨rowViews_forall₂ ps vs h, rowViews_length ps vs h, hp, ?_⟩
    intro hfree
    rw [hp, rowOpenings_tableMarkup vs hfree, rowViews_length ps vs h]
  · intro h
    obtain ⟨e, he⟩ := (renderProducts_rows ps hne).2 h
    simp [fetchProducts, fetchProductsSettle, fetchProductsChain_of_render_error _ e _ he]

/-- The table of C4 for a catalog of two products, the first without a
category and with a single quote in its name: the markup is the table of the
two views and opens three rows, the header row and one for each product. -/
theorem fetchProducts_renders_rows_witness :
    [Json.obj [("prodId", .num "1"), ("prodName", .str "O'Neil"), ("price", .num "9.99")],
     Json.obj [("prodId", .num "2"), ("prodName", .str "Bolt"), ("price", .num "0.5"),
               ("category", .str "Tools")]] ≠ [] ∧
    (fetchProducts (.parsed (.arr
      [Json.obj [("prodId", .num "1"), ("prodName", .str "O'Neil"), ("price", .num "9.99")],
       Json.obj [("prodId", .num "2"), ("prodName", .str "Bolt"), ("price", .num "0.5"),
                 ("category", .str "Tools")]])) Page.blank).productList
      = tableMarkup [⟨"1", "O'Neil", "9.99", ""⟩, ⟨"2", "Bolt", "0.5", "Tools"⟩] ∧
    rowOpenings (fetchProducts (.parsed (.arr
      [Json.obj [("prodId", .num "1"), ("prodName", .str "O'Neil"), ("price", .num "9.99")],
       Json.obj [("prodId", .num "2"), ("prodName", .str "Bolt"), ("price", .num "0.5"),
                 ("category", .str "Tools")]])) Page.blank).productList.data = 2 + 1 :=
  ⟨List.cons_ne_nil _ _,
   ((fetchProducts_renders_rows _ Page.blank (List.cons_ne_nil _ _)).1
      [⟨"1", "O'Neil", "9.99", ""⟩, ⟨"2", "Bolt", "0.5", "Tools"⟩]
      (by simp [rowViews, rowView, List.lookup, interpolate, Json.toStr, truthy])).2.2.1,
   ((fetchProducts_renders_rows _ Page.blank (List.cons_ne_nil _ _)).1
      [⟨"1", "O'Neil", "9.99", ""⟩, ⟨"2", "Bolt", "0.5", "Tools"⟩]
      (by simp [rowViews, rowView, List.lookup, interpolate, Json.toStr, truthy])).2.2.2
      (by decide)⟩

set_option maxRecDepth 100000 in
/-- Why the count of rows in C4 asks for texts without `<`: the one product
whose name is `a</td></tr><tr><td>b` has a view and its name is pasted into the
markup as it is, once in the name cell and once in the edit control, so that
the markup holds the tag `<tr>` four times where a plain name gives two: in
the name cell the pasted tag opens a second data row for the one element. -/
theorem markup_in_a_name_opens_a_row :
    rowViews [Json.obj [("prodId", .num "1"), ("prodName", .str "a</td></tr><tr><td>b"),
        ("price", .num "2")]]
      = some [⟨"1", "a</td></tr><tr><td>b", "2", ""⟩] ∧
    renderProducts (.arr [Json.obj [("prodId", .num "1"),
        ("prodName", .str "a</td></tr><tr><td>b"), ("price", .num "2")]])
      = .ok (tableMarkup [⟨"1", "a</td></tr><tr><td>b", "2", ""⟩]) ∧
    rowOpenings (tableMarkup [⟨"1", "a</td></tr><tr><td>b", "2", ""⟩]).data = 4 := by
  have hv : rowViews [Json.obj [("prodId", .num "1"),
      ("prodName", .str "a</td></tr><tr><td>b"), ("price", .num "2")]]
      = some [⟨"1", "a</td></tr><tr><td>b", "2", ""⟩] := by
    simp [rowViews, rowView, List.lookup, interpolate, Json.toStr, truthy]
  exact ⟨hv, (renderProducts_rows _ (List.cons_ne_nil _ _)).1 _ hv, by decide⟩

/-! ## The payload of a patch (C5) -/

/-- C5: whatever the patch form holds and however the request ends,
`patchProduct` sends a `PATCH` to `/products/` followed by the id of the form,
with the object `patchData` as its body; a pair is in that object exactly when
it is the key of an input whose string is not empty together with that string
unchanged (the key of the name input is `prodName`), and no key occurs twice.
With only the price `12.50` filled in for the id `7`, the body is exactly the
one pair of `price` and `12.50`, sent to `/products/7`. -/
theorem patchProduct_payload (w : WriteOutcome) (now : Nat) (r : ReadOutcome) (s : Page) :
    (∃ rest, (patchProduct w now r s).requests = s.requests ++
      { method := "PATCH", url := "/products/" ++ s.patchForm.prodId, headers := jsonHeaders,
        body := some (patchData s.patchForm.prodName s.patchForm.price s.patchForm.category
          s.patchForm.imageUrl) } :: rest) ∧
    (∀ k v, (k, v) ∈ patchData s.patchForm.prodName s.patchForm.price s.patchForm.category
        s.patchForm.imageUrl ↔
      (k = "prodName" ∧ v = s.patchForm.prodName ∧ s.patchForm.prodName ≠ "") ∨
      (k = "price" ∧ v = s.patchForm.price ∧ s.patchForm.price ≠ "") ∨
      (k = "category" ∧ v = s.patchForm.category ∧ s.patchForm.category ≠ "") ∨
      (k = "imageUrl" ∧ v = s.patchForm.imageUrl ∧ s.patchForm.imageUrl ≠ "")) ∧
    ((patchData s.patchForm.prodName s.patchForm.price s.patchForm.category
        s.patchForm.imageUrl).map Prod.fst).Nodup ∧
    (∃ rest, (patchProduct w now r { s with patchForm := ⟨"7", "", "12.50", "", ""⟩ }).requests
      = s.requests ++
        { method := "PATCH", url := "/products/7", headers := jsonHeaders,
          body := some [("price", "12.50")] } :: rest) := by
  refine ⟨?_, ?_, ?_, ?_⟩
  · cases w <;>
      simp [patchProduct, showMessage, fetchProductsRequest, settle_requests]
  · intro k v
    by_cases ha : s.patchForm.prodName = "" <;> by_cases hb : s.patchForm.price = "" <;>
      by_cases hc : s.patchForm.category = "" <;> by_cases hd : s.patchForm.imageUrl = "" <;>
      simp [patchData, ha, hb, hc, hd]
  · by_cases ha : s.patchForm.prodName = "" <;> by_cases hb : s.patchForm.price = "" <;>
      by_cases hc : s.patchForm.category = "" <;> by_cases hd : s.patchForm.imageUrl = "" <;>
      simp [patchData, ha, hb, hc, hd]
  · cases w <;>
      simp [patchProduct, showMessage, fetchProductsRequest, settle_requests, patchData]

/-! ## The empty state (C6) -/

/-- C6: for a parsed read response that is not an array, or is the empty
array, `fetchProducts` sets the content of the container to exactly the
placeholder of the empty catalog, and changes nothing else but the log of the
requests. -/
theorem fetchProducts_empty_state (products : Json) (s : Page)
    (h : isArray products = false ∨ products = .arr []) :
    fetchProducts (.parsed products) s
      = { fetchProductsRequest s with
          productList := "<div class=\"empty\">No products found.</div>" } := by
  have hr : renderProducts products = .ok emptyPlaceholder := by
    rcases h with h | h
    · simp [renderProducts, h, pure, Except.pure]
    · subst h; rfl
  simp [fetchProducts, fetchProductsSettle, fetchProductsChain_of_render_ok _ _ _ hr,
    emptyPlaceholder]

/-- The empty state of C6 for the response `null`. -/
theorem fetchProducts_empty_state_witness :
    (isArray Json.null = false ∨ Json.null = .arr []) ∧
    fetchProducts (.parsed .null) Page.blank
      = { fetchProductsRequest Page.blank with
          productList := "<div class=\"empty\">No products found.</div>" } :=
  ⟨Or.inl rfl, fetchProducts_empty_state .null Page.blank (Or.inl rfl)⟩

/-! ## The failed read (C7) -/

/-- C7: when the read request is rejected at the network, or its body does not
parse as JSON, the promise chain of `fetchProducts` is fulfilled, not rejected,
and the content of the container is exactly the error placeholder; more, the
chain is fulfilled for every outcome of the read request. -/
theorem fetchProducts_absorbs_read_failure (s : Page) :
    fetchProductsChain .networkFailure s
      = .ok { s with productList := "<div class=\"empty\">Failed to load products.</div>" } ∧
    fetchProductsChain .notJson s
      = .ok { s with productList := "<div class=\"empty\">Failed to load products.</div>" } ∧
    (fetchProducts .networkFailure s).productList
      = "<div class=\"empty\">Failed to load products.</div>" ∧
    (fetchProducts .notJson s).productList
      = "<div class=\"empty\">Failed to load products.</div>" ∧
    (∀ r, ∃ s1, fetchProductsChain r s = .ok s1) := by
  refine ⟨rfl, rfl, rfl, rfl, ?_⟩
  intro r
  obtain ⟨m, hm⟩ := fetchProductsChain_ok r s
  exact ⟨_, hm⟩

/-! ## The relayed text (C8) -/

/-- C8: for each write operation and every response, whatever its status code
and its body text, the status message shown is exactly that text, in green for
create, blue for replace, orange for the partial update and red for delete. -/
theorem write_response_relayed_verbatim (status : Nat) (text : String) (now : Nat)
    (r : ReadOutcome) (s : Page) (prodId : String) :
    ((addProduct (.response status text) now r s).messageText = text ∧
     (addProduct (.response status text) now r s).messageColor = "green") ∧
    ((updateProduct (.response status text) now r s).messageText = text ∧
     (updateProduct (.response status text) now r s).messageColor = "blue") ∧
    ((patchProduct (.response status text) now r s).messageText = text ∧
     (patchProduct (.response status text) now r s).messageColor = "orange") ∧
    ((deleteProduct prodId (.response status text) now r s).messageText = text ∧
     (deleteProduct prodId (.response status text) now r s).messageColor = "red") := by
  simp [addProduct, updateProduct, patchProduct, deleteProduct, settle_messageText,
    settle_messageColor, showMessage, fetchProductsRequest]

/-! ## The payloads of create and replace (C9) -/

/-- C9: whatever the add form holds and however the request ends, `addProduct`
sends a `POST` to `/products` whose body has exactly the three entries for the
name (key `prodName`), the price and the category, each with the string of its
input unchanged; whatever the update form holds, `updateProduct` sends a `PUT`
to `/products/` followed by the id of the form, whose body has exactly the four
entries for the id (key `prodId`), the name (key `prodName`), the price and the
category, each with the string of its input unchanged.  With `Widget`, `9.99`
and `Tools` in the add form the price entry is the string `9.99`. -/
theorem create_and_replace_payloads (w : WriteOutcome) (now : Nat) (r : ReadOutcome)
    (s : Page) :
    (∃ rest, (addProduct w now r s).requests = s.requests ++
      { method := "POST", url := "/products", headers := jsonHeaders,
        body := some [("prodName", s.addForm.prodName), ("price", s.addForm.price),
                      ("category", s.addForm.category)] } :: rest) ∧
    (∃ rest, (updateProduct w now r s).requests = s.requests ++
      { method := "PUT", url := "/products/" ++ s.updateForm.prodId, headers := jsonHeaders,
        body := some [("prodId", s.updateForm.prodId), ("prodName", s.updateForm.prodName),
                      ("price", s.updateForm.price),
                      ("category", s.updateForm.category)] } :: rest) ∧
    (∃ rest, (addProduct w now r { s with addForm := ⟨"Widget", "9.99", "Tools"⟩ }).requests
      = s.requests ++
        { method := "POST", url := "/products", headers := jsonHeaders,
          body := some [("prodName", "Widget"), ("price", "9.99"),
                        ("category", "Tools")] } :: rest) := by
  refine ⟨?_, ?_, ?_⟩ <;> cases w <;>
    simp [addProduct, updateProduct, showMessage, fetchProductsRequest, settle_requests]

/-! ## The escaped quotes (C10) -/

/-- C10: the claimed round trip does not hold of the code for a name with a
backslash.  For the product with id 1, price 2, category `c` and the name that
is one backslash, the renderer writes the row below, in which the name stands
as a quote, the backslash and a quote; read as a single-quoted literal, that
text does not end at the quote the renderer wrote: the backslash escapes it,
the literal runs on to the opening quote of the category and denotes the six
characters quote, comma, blank, `2`, comma, blank instead of the name. -/
theorem backslash_name_escapes_closing_quote :
    productRow (.obj [("prodId", .num "1"), ("prodName", .str "\\"), ("price", .num "2"),
        ("category", .str "c")])
      = .ok (rowTemplate "1" "\\" "2" "c" "1" "\\" "2" "c" "1") ∧
    escapeQuotes "\\" = "\\" ∧
    readSingleQuoted ("'" ++ escapeQuotes "\\" ++ "', 2, 'c')").data
      = some ("', 2, ".data, "c')".data) ∧
    readSingleQuoted ("'" ++ escapeQuotes "\\" ++ "', 2, 'c')").data
      ≠ some ("\\".data, ", 2, 'c')".data) := by
  refine ⟨?_, by decide, by decide, by decide⟩
  have hv : rowView (.obj [("prodId", .num "1"), ("prodName", .str "\\"), ("price", .num "2"),
      ("category", .str "c")]) = some ⟨"1", "\\", "2", "c"⟩ := by
    simp [rowView, List.lookup, interpolate, Json.toStr, truthy]
  rw [productRow_of_rowView _ _ hv, ← rowTemplate_eq_rowMarkup]
  rfl

end SreDemo
